import Mathlib

/-!
Shallow embedding of the homebridge-button-platform event-ingestion and
device-registry subsystem (src/platform.ts, src/platformAccessory.ts),
with theorems checking the natural-language specification against it.

Conventions of the embedding:
* JS strings are Lean `String`s (one entry per code point, matching the
  `u` regex flag used by the source).
* JS numbers reaching the battery path are modelled as `Rat`, so that
  `Math.trunc`'s truncation toward zero is meaningful; levels stored
  after clamping are `Int`.
* `undefined` values are `Option.none`.
* HomeKit characteristic writes are recorded in the handler state:
  `battLevelChar`/`lowBattChar` hold the last written value (`none` when
  never written; `lowBattChar = some true` is BATTERY_LEVEL_LOW,
  `some false` is BATTERY_LEVEL_NORMAL), and `sendEventNotification`
  appends to `notifications`.
-/

namespace ButtonPlatform

/-- The semantic press kinds of `Characteristic.ProgrammableSwitchEvent`,
plus `unknown` for tokens the `switch` in `triggerEvent` does not match. -/
inductive PressEvent where
  | singlePress
  | doublePress
  | longPress
  | unknown
deriving Repr, DecidableEq

/-- The allow-list `validEvents` of `setupRoute` (platform.ts line 124). -/
def validEvents : List String :=
  ["click", "double-click", "hold", "single-press", "double-press", "long-press"]

/-- The `switch (eventType)` mapping of `triggerEvent`
(platformAccessory.ts lines 63-79): case-sensitive exact match, default
branch yields `unknown`. -/
def classify (eventType : String) : PressEvent :=
  if eventType = "click" ∨ eventType = "single-press" then PressEvent.singlePress
  else if eventType = "double-click" ∨ eventType = "double-press" then PressEvent.doublePress
  else if eventType = "hold" ∨ eventType = "long-press" then PressEvent.longPress
  else PressEvent.unknown

/-- A persisted `PlatformAccessory` record: display name, UUID, and the
`context.device.name` payload. -/
structure Accessory where
  displayName : String
  uuid : String
  contextName : String
deriving Repr, DecidableEq

/-- The in-memory `ButtonPlatformAccessory` handler: the wrapped accessory,
the private `batteryLevel` field (initially 100), the two battery
characteristic values last written (never written = `none`), and the list
of press-event notifications sent on the switch service. -/
structure HandlerState where
  acc : Accessory
  batteryLevel : Int
  battLevelChar : Option Int
  lowBattChar : Option Bool
  notifications : List PressEvent
deriving Repr, DecidableEq

/-- `new ButtonPlatformAccessory(this, accessory)`: fresh handler state,
`batteryLevel = 100` (platformAccessory.ts line 8), no characteristic
update and no notification performed yet. -/
def mkHandler (acc : Accessory) : HandlerState :=
  { acc := acc, batteryLevel := 100, battLevelChar := none,
    lowBattChar := none, notifications := [] }

/-- `Math.trunc`: truncation toward zero. -/
def jsTrunc (x : Rat) : Int :=
  if 0 ≤ x then x.floor else x.ceil

/-- `updateBattery` (platformAccessory.ts lines 89-107):
`Math.max(0, Math.min(100, Math.trunc(level)))`, store it, write the
battery-level characteristic, derive `isLowBattery = batteryLevel < 15`
and write the low-battery characteristic. -/
def updateBattery (h : HandlerState) (level : Rat) : HandlerState :=
  let batteryLevel := max 0 (min 100 (jsTrunc level))
  { h with batteryLevel := batteryLevel,
           battLevelChar := some batteryLevel,
           lowBattChar := some (decide (batteryLevel < 15)) }

/-- `triggerEvent` (platformAccessory.ts lines 53-87): update the battery
first when a level was provided, then map the event token; on the default
branch log and return (no notification), otherwise send one notification. -/
def triggerEvent (h : HandlerState) (eventType : String) (batteryLevel : Option Rat) :
    HandlerState :=
  let h1 := match batteryLevel with
    | some l => updateBattery h l
    | none => h
  match classify eventType with
  | PressEvent.unknown => h1
  | e => { h1 with notifications := h1.notifications ++ [e] }

/-- The platform's registry state: `this.accessories` (filled only by
`configureAccessory` from the startup cache) and the
`this.accessoryHandlers` map, keyed by UUID (modelled as an association
list in insertion order). -/
structure RegState where
  accessories : List Accessory
  handlers : List (String × HandlerState)
deriving Repr, DecidableEq

/-- `Map.prototype.set`: replace the value at an existing key, else append. -/
def mapSet (m : List (String × HandlerState)) (k : String) (v : HandlerState) :
    List (String × HandlerState) :=
  if m.any (fun p => p.1 == k) then
    m.map (fun p => if p.1 == k then (k, v) else p)
  else
    m ++ [(k, v)]

/-- `Map.prototype.delete`. -/
def mapDelete (m : List (String × HandlerState)) (k : String) :
    List (String × HandlerState) :=
  m.filter (fun p => p.1 != k)

/-- `Map.prototype.get`. -/
def mapGet (m : List (String × HandlerState)) (k : String) : Option HandlerState :=
  (m.find? (fun p => p.1 == k)).map (fun p => p.2)

/-- `this.accessories.find(accessory => accessory.UUID === uuid)`. -/
def findAccessory (accs : List Accessory) (uuid : String) : Option Accessory :=
  accs.find? (fun a => a.uuid == uuid)

/-- `configureAccessory` (platform.ts lines 59-62): push each cached
accessory onto `this.accessories`. -/
def configureAccessory (st : RegState) (acc : Accessory) : RegState :=
  { st with accessories := st.accessories ++ [acc] }

/-- Outcome of one `discoverDevices` run: the post-state plus the display
names restored from cache, added (announced via
`registerPlatformAccessories`), and removed (announced via
`unregisterPlatformAccessories`), in processing order. -/
structure ReconcileResult where
  state : RegState
  restored : List String
  added : List String
  removed : List String
deriving Repr, DecidableEq

/-- The `for (const buttonName of this.buttons)` loop of `discoverDevices`
(platform.ts lines 65-83), parameterised by the framework's UUID
generator `gen`. The restored branch refreshes the cached accessory's
context in place and builds a handler over it; the added branch builds a
fresh accessory and handler and registers the accessory — note that the
source never pushes it onto `this.accessories`. -/
def discoverLoop (gen : String → String) :
    List String → RegState → RegState × List String × List String
  | [], st => (st, [], [])
  | name :: rest, st =>
    let uuid := gen name
    match findAccessory st.accessories uuid with
    | some existing =>
      let accessories := st.accessories.map
        (fun a => if a.uuid == uuid then { a with contextName := name } else a)
      let handler := mkHandler { existing with contextName := name }
      let st1 : RegState := { accessories := accessories,
                              handlers := mapSet st.handlers uuid handler }
      let r := discoverLoop gen rest st1
      (r.1, name :: r.2.1, r.2.2)
    | none =>
      let acc : Accessory := { displayName := name, uuid := uuid, contextName := name }
      let st1 : RegState := { st with handlers := mapSet st.handlers uuid (mkHandler acc) }
      let r := discoverLoop gen rest st1
      (r.1, r.2.1, name :: r.2.2)

/-- `discoverDevices` (platform.ts lines 64-94): the per-button loop, then
removal of accessories whose UUID is not among the configured UUIDs —
each one's handler is deleted from the map and the accessory is
unregistered; the source does not remove it from `this.accessories`. -/
def discoverDevices (gen : String → String) (buttons : List String) (st : RegState) :
    ReconcileResult :=
  let r := discoverLoop gen buttons st
  let st1 := r.1
  let configuredUUIDs := buttons.map gen
  let toRemove := st1.accessories.filter (fun a => !(configuredUUIDs.contains a.uuid))
  { state := { accessories := st1.accessories,
               handlers := toRemove.foldl (fun h a => mapDelete h a.uuid) st1.handlers },
    restored := r.2.1,
    added := r.2.2,
    removed := toRemove.map (fun a => a.displayName) }

/-- An inbound HTTP request as the route handler sees it: the `event`
value in the query string, parsed body and headers, and the
`button-battery-level` header. `none` is an absent field (JS `undefined`). -/
structure Request where
  queryEvent : Option String
  bodyEvent : Option String
  headerEvent : Option String
  batteryHeader : Option String
deriving Repr, DecidableEq

/-- validator.js digit-run parser: at least one digit, base 10. -/
def parseDigits (l : List Char) : Option Nat :=
  if l = [] then none
  else if l.all Char.isDigit then
    some (l.foldl (fun acc c => acc * 10 + (c.toNat - 48)) 0)
  else none

/-- validator.js `isInt` with default options: the string must match
an optional sign followed by one or more digits; returns its value. -/
def parseIntStr (s : String) : Option Int :=
  match s.data with
  | '+' :: rest => (parseDigits rest).map (fun n => (n : Int))
  | '-' :: rest => (parseDigits rest).map (fun n => -(n : Int))
  | l => (parseDigits l).map (fun n => (n : Int))

/-- `.isIn(validEvents)` applied to one source: an absent field fails the
validator, a present one must be one of the six tokens. -/
def isInValidEvents : Option String → Bool
  | some s => validEvents.contains s
  | none => false

/-- The `oneOf([query, body, header])` chain (platform.ts lines 128-132):
it passes when at least one of the three sources passes `.isIn`. -/
def anyEventValid (req : Request) : Bool :=
  isInValidEvents req.queryEvent || isInValidEvents req.bodyEvent ||
    isInValidEvents req.headerEvent

/-- `header('button-battery-level').optional().isInt({ min: 0, max: 100 })`
(platform.ts line 133): absent passes; present must parse as an integer
string in [0, 100]. -/
def batteryHeaderOk : Option String → Bool
  | none => true
  | some s =>
    match parseIntStr s with
    | some n => decide (0 ≤ n ∧ n ≤ 100)
    | none => false

/-- The two kinds of entries `validationResult(req).errors.array()` can
hold for this route: the grouped `oneOf` failure, and the battery-header
failure. -/
inductive VErr where
  | eventOneOf
  | batteryNotIntInRange
deriving Repr, DecidableEq

/-- `validationResult(req)` contents, in middleware order. -/
def validationErrors (req : Request) : List VErr :=
  (if anyEventValid req then [] else [VErr.eventOneOf]) ++
    (if batteryHeaderOk req.batteryHeader then [] else [VErr.batteryNotIntInRange])

/-- `req.query?.event ?? req.body?.event ?? req.headers?.event`
(platform.ts line 140): the first present source is used. When all three
are absent the JS value is `undefined`, which no `switch` case matches;
that branch is unreachable once validation has passed, and is rendered
by a token outside the allow-list. -/
def eventValue (req : Request) : String :=
  ((req.queryEvent.orElse (fun _ => req.bodyEvent)).orElse
    (fun _ => req.headerEvent)).getD "undefined"

/-- `batteryLevel ? Number(batteryLevel) : undefined` (platform.ts
line 159): an absent or empty (falsy) header yields no argument;
otherwise the validated integer string is converted. A present non-integer
string would yield NaN, but that branch is unreachable because the header
was validated by `isInt` before this point; it is rendered as `none`. -/
def batteryArg (req : Request) : Option Rat :=
  match req.batteryHeader with
  | none => none
  | some s =>
    if s = "" then none
    else match parseIntStr s with
      | some n => some (n : Rat)
      | none => none

/-- HTTP responses the route handler can produce. -/
inductive Response where
  | ok
  | unprocessable (errors : List VErr)
  | notFound
  | serverError
deriving Repr, DecidableEq

/-- The request handler installed by `setupRoute` for `buttonName`
(platform.ts lines 134-162): check validation errors (422), read the
event from the first present source, look the accessory up in
`this.accessories` by UUID (404 when absent), fetch the handler from the
map (500 when absent), call `triggerEvent`, respond 200. The returned
state reflects the handler object's in-place mutation. -/
def handleRequest (gen : String → String) (st : RegState) (buttonName : String)
    (req : Request) : Response × RegState :=
  let errs := validationErrors req
  if errs.isEmpty then
    let uuid := gen buttonName
    match findAccessory st.accessories uuid with
    | none => (Response.notFound, st)
    | some _ =>
      match mapGet st.handlers uuid with
      | none => (Response.serverError, st)
      | some h =>
        let h1 := triggerEvent h (eventValue req) (batteryArg req)
        (Response.ok, { st with handlers := mapSet st.handlers uuid h1 })
  else
    (Response.unprocessable errs, st)

/-- The per-code-point replacement performed by
`.replace(/[^a-z0-9]/giu, '-')` on the lower-cased name: characters in
[a-z0-9] are kept, every other one becomes a single hyphen. -/
def replaceNonAlnum (c : Char) : Char :=
  if ('a' ≤ c ∧ c ≤ 'z') ∨ ('0' ≤ c ∧ c ≤ '9') then c else '-'

/-- `generateButtonUri` (platform.ts lines 166-168):
`'/button-' + buttonName.toLowerCase().replace(/[^a-z0-9]/giu, '-')`.
Lower-casing is modelled per code point. -/
def generateButtonUri (buttonName : String) : String :=
  "/button-" ++ String.mk ((buttonName.data.map Char.toLower).map replaceNonAlnum)

/-- The route-registration loop of `setupExpressServer` (platform.ts
lines 102-104): one `app.all(uri, ...)` registration per configured
button, in order; the result is the list of registered route paths. -/
def setupRoutes (buttons : List String) : List String :=
  buttons.foldl (fun routes name => routes ++ [generateButtonUri name]) []

/-- Modelled from the spec (§4.5, §6): the documented path formula — the
name lower-cased, with every character outside [a-z0-9] replaced by a
single "-", appended to "/button-". Stated independently of
`generateButtonUri` for comparison with it. -/
def specButtonPath (n : String) : String :=
  "/button-" ++ String.mk (n.data.map (fun c =>
    let lc := Char.toLower c
    if ('a' ≤ lc ∧ lc ≤ 'z') ∨ ('0' ≤ lc ∧ lc ≤ '9') then lc else '-'))

/-- `this.port = config.port || 3001` (platform.ts line 42): JS `||`
takes the default whenever `config.port` is falsy — absent or `0`. -/
def resolvePort (configPort : Option Int) : Int :=
  match configPort with
  | none => 3001
  | some p => if p = 0 then 3001 else p

/-! ## Shared states for concrete runs -/

/-- The platform state before any cached accessory is loaded. -/
def emptyState : RegState := { accessories := [], handlers := [] }

/-- State after restoring a cached accessory named "btn" and reconciling
the configuration ["btn"] (a restored device, whose route lookups succeed). -/
def cachedBtnState : RegState :=
  (discoverDevices id ["btn"]
    (configureAccessory emptyState
      { displayName := "btn", uuid := "btn", contextName := "btn" })).state

/-- A request whose query-string event is not an accepted token but whose
header event is. -/
def mixedSourcesReq : Request :=
  { queryEvent := some "nope", bodyEvent := none, headerEvent := some "click",
    batteryHeader := none }

/-- A request carrying the valid token "click" in the query string only. -/
def clickQueryReq : Request :=
  { queryEvent := some "click", bodyEvent := none, headerEvent := none,
    batteryHeader := none }

/-! ## Helper lemmas -/

theorem foldl_routes_eq_map (buttons : List String) (init : List String) :
    buttons.foldl (fun routes name => routes ++ [generateButtonUri name]) init
      = init ++ buttons.map generateButtonUri := by
  induction buttons generalizing init with
  | nil => simp
  | cons b bs ih => simp [ih]

theorem updateBattery_batteryLevel (h : HandlerState) (x : Rat) :
    (updateBattery h x).batteryLevel = max 0 (min 100 (jsTrunc x)) := rfl

theorem updateBattery_lowBattChar (h : HandlerState) (x : Rat) :
    (updateBattery h x).lowBattChar
      = some (decide (max 0 (min 100 (jsTrunc x)) < 15)) := rfl

theorem validationErrors_nil_iff (req : Request) :
    validationErrors req = [] ↔
      (anyEventValid req = true ∧ batteryHeaderOk req.batteryHeader = true) := by
  cases hA : anyEventValid req <;> cases hB : batteryHeaderOk req.batteryHeader <;>
    simp [validationErrors, hA, hB]

/-! ## Claim theorems -/

/-- C1 (counterexample): a request whose first-present source (the query
string) holds an invalid token is nevertheless accepted with 200 when a
later source (the header) holds a valid token, because `oneOf` passes as
soon as any source validates — the claimed 422 does not happen, and the
invalid first-present value is the one used. -/
theorem c1_first_source_invalid_still_accepted :
    isInValidEvents mixedSourcesReq.queryEvent = false ∧
    eventValue mixedSourcesReq = "nope" ∧
    (handleRequest id cachedBtnState "btn" mixedSourcesReq).1 = Response.ok := by
  decide

/-- C1 (amended): the event value used to trigger is read from the query
string, else the body, else a header, in that precedence order; but the
request is accepted (200) if and only if at least ONE of the three
sources holds a valid token (and the optional battery header validates) —
the sources are validated independently by `oneOf`, so a request whose
first-present source is invalid is still accepted whenever a later source
is valid, and the trigger then runs with the invalid first-present token. -/
theorem c1_acceptance_any_source_event_first_present (gen : String → String)
    (st : RegState) (name : String) (req : Request) (a : Accessory) (h : HandlerState)
    (hacc : findAccessory st.accessories (gen name) = some a)
    (hh : mapGet st.handlers (gen name) = some h) :
    ((handleRequest gen st name req).1 = Response.ok ↔
      (anyEventValid req = true ∧ batteryHeaderOk req.batteryHeader = true)) ∧
    (∀ q, req.queryEvent = some q → eventValue req = q) ∧
    (req.queryEvent = none → ∀ b, req.bodyEvent = some b → eventValue req = b) ∧
    (req.queryEvent = none → req.bodyEvent = none →
      ∀ e, req.headerEvent = some e → eventValue req = e) ∧
    (anyEventValid req = true → batteryHeaderOk req.batteryHeader = true →
      handleRequest gen st name req = (Response.ok,
        { st with handlers := (mapSet st.handlers (gen name)
            (triggerEvent h (eventValue req) (batteryArg req))) })) := by
  refine ⟨?_, ?_, ?_, ?_, ?_⟩
  · cases hA : anyEventValid req <;> cases hB : batteryHeaderOk req.batteryHeader <;>
      simp [handleRequest, validationErrors, hA, hB, hacc, hh]
  · intro q hq
    simp [eventValue, hq, Option.orElse]
  · intro hq b hb
    simp [eventValue, hq, hb, Option.orElse]
  · intro hq hb e he
    simp [eventValue, hq, hb, he, Option.orElse]
  · intro hA hB
    simp [handleRequest, validationErrors, hA, hB, hacc, hh]

/-- C1 (witness for the amended theorem), at the restored "btn" device
and a request carrying `event=click` in the query string. -/
theorem c1_amended_witness :
    (handleRequest id cachedBtnState "btn" clickQueryReq).1 = Response.ok ↔
      (anyEventValid clickQueryReq = true ∧
        batteryHeaderOk clickQueryReq.batteryHeader = true) :=
  (c1_acceptance_any_source_event_first_present id cachedBtnState "btn" clickQueryReq
    { displayName := "btn", uuid := "btn", contextName := "btn" }
    (mkHandler { displayName := "btn", uuid := "btn", contextName := "btn" })
    (by decide) (by decide)).1

/-- C2: contrary to the claim, the not-found branch IS reachable for a
newly added device — `discoverDevices` registers it and installs its
handler, but never pushes it onto `this.accessories`, so a validated
request to its route responds 404 and mutates nothing. -/
theorem c2_new_device_route_hits_not_found :
    (discoverDevices id ["a"] emptyState).added = ["a"] ∧
    mapGet (discoverDevices id ["a"] emptyState).state.handlers (id "a")
      = some (mkHandler { displayName := "a", uuid := "a", contextName := "a" }) ∧
    validationErrors clickQueryReq = [] ∧
    handleRequest id (discoverDevices id ["a"] emptyState).state "a" clickQueryReq
      = (Response.notFound, (discoverDevices id ["a"] emptyState).state) := by
  decide

/-- C3: contrary to the claim, `discoverDevices` is not idempotent — with
an empty startup cache and configuration ["a"], the first run adds "a",
and a second run over the state it left adds "a" again (registration
never updates `this.accessories`, which the loop consults). -/
theorem c3_second_reconcile_re_adds :
    (discoverDevices id ["a"] emptyState).added = ["a"] ∧
    (discoverDevices id ["a"] (discoverDevices id ["a"] emptyState).state).added = ["a"] ∧
    (discoverDevices id ["a"] (discoverDevices id ["a"] emptyState).state).added ≠ [] := by
  decide

/-- C4: for a persisted set {A, B} and configured names {B, C} (distinct
UUIDs), reconcile restores exactly B (refreshing its context to the
current name), adds exactly C, removes exactly A, and leaves the handle
index with exactly one entry per configured name — keyed by the UUIDs of
B and C — and none for A. -/
theorem c4_reconcile_a_b_versus_b_c (gen : String → String)
    (A B C ctxA ctxB : String)
    (hAB : gen A ≠ gen B) (hAC : gen A ≠ gen C) (hBC : gen B ≠ gen C) :
    (discoverDevices gen [B, C]
        { accessories := [⟨A, gen A, ctxA⟩, ⟨B, gen B, ctxB⟩], handlers := [] }).restored
      = [B] ∧
    (discoverDevices gen [B, C]
        { accessories := [⟨A, gen A, ctxA⟩, ⟨B, gen B, ctxB⟩], handlers := [] }).added
      = [C] ∧
    (discoverDevices gen [B, C]
        { accessories := [⟨A, gen A, ctxA⟩, ⟨B, gen B, ctxB⟩], handlers := [] }).removed
      = [A] ∧
    (discoverDevices gen [B, C]
        { accessories := [⟨A, gen A, ctxA⟩, ⟨B, gen B, ctxB⟩], handlers := [] }).state.handlers
      = [(gen B, mkHandler ⟨B, gen B, B⟩), (gen C, mkHandler ⟨C, gen C, C⟩)] := by
  have hBA : gen B ≠ gen A := Ne.symm hAB
  have hCA : gen C ≠ gen A := Ne.symm hAC
  have hCB : gen C ≠ gen B := Ne.symm hBC
  refine ⟨?_, ?_, ?_, ?_⟩ <;>
    simp [discoverDevices, discoverLoop, findAccessory, mapSet, mapDelete, mkHandler,
          hAB, hAC, hBC, hBA, hCA, hCB]

/-- C4 (witness): the scenario instantiated with the identity UUID
generator and names "a", "b", "c" with stale cached contexts. -/
theorem c4_reconcile_witness :
    (id "a" : String) ≠ id "b" ∧
    (discoverDevices id ["b", "c"]
        { accessories := [⟨"a", id "a", "old-a"⟩, ⟨"b", id "b", "old-b"⟩],
          handlers := [] }).restored = ["b"] :=
  ⟨by decide,
    (c4_reconcile_a_b_versus_b_c id "a" "b" "c" "old-a" "old-b"
      (by decide) (by decide) (by decide)).1⟩

/-- C5: the battery update truncates toward zero, clamps into [0, 100],
stores the result, and derives low battery as level < 15; on
{-5, 0, 15, 14, 100, 150} it stores {0, 0, 15, 14, 100, 100} with low
battery {true, true, false, true, false, false} (15 is not low, 14 is),
and fractional inputs 14.5 and -0.5 truncate toward zero to 14 and 0. -/
theorem c5_battery_clamp_and_low (h : HandlerState) :
    ((updateBattery h (-5)).batteryLevel = 0 ∧
      (updateBattery h (-5)).lowBattChar = some true) ∧
    ((updateBattery h 0).batteryLevel = 0 ∧
      (updateBattery h 0).lowBattChar = some true) ∧
    ((updateBattery h 15).batteryLevel = 15 ∧
      (updateBattery h 15).lowBattChar = some false) ∧
    ((updateBattery h 14).batteryLevel = 14 ∧
      (updateBattery h 14).lowBattChar = some true) ∧
    ((updateBattery h 100).batteryLevel = 100 ∧
      (updateBattery h 100).lowBattChar = some false) ∧
    ((updateBattery h 150).batteryLevel = 100 ∧
      (updateBattery h 150).lowBattChar = some false) ∧
    (updateBattery h (29 / 2)).batteryLevel = 14 ∧
    (updateBattery h (-1 / 2)).batteryLevel = 0 ∧
    (∀ x : Rat, (updateBattery h x).lowBattChar
      = some (decide ((updateBattery h x).batteryLevel < 15))) ∧
    (∀ x : Rat, (updateBattery h x).battLevelChar
      = some (updateBattery h x).batteryLevel) := by
  refine ⟨⟨?_, ?_⟩, ⟨?_, ?_⟩, ⟨?_, ?_⟩, ⟨?_, ?_⟩, ⟨?_, ?_⟩, ⟨?_, ?_⟩, ?_, ?_,
    fun x => rfl, fun x => rfl⟩ <;>
  first
    | (rw [updateBattery_batteryLevel]; decide)
    | (rw [updateBattery_lowBattChar]; decide)
    | (rw [updateBattery_batteryLevel]; norm_num [jsTrunc, Rat.floor, Rat.ceil])

/-- C6: event classification is a deterministic total function: the six
accepted tokens map to their press kinds (case-sensitive exact match) and
every other string maps to `unknown`. -/
theorem c6_classify_total (s : String) (hs : s ∉ validEvents) :
    classify "click" = PressEvent.singlePress ∧
    classify "single-press" = PressEvent.singlePress ∧
    classify "double-click" = PressEvent.doublePress ∧
    classify "double-press" = PressEvent.doublePress ∧
    classify "hold" = PressEvent.longPress ∧
    classify "long-press" = PressEvent.longPress ∧
    classify s = PressEvent.unknown := by
  simp [validEvents] at hs
  obtain ⟨h1, h2, h3, h4, h5, h6⟩ := hs
  refine ⟨by decide, by decide, by decide, by decide, by decide, by decide, ?_⟩
  simp [classify, h1, h2, h3, h4, h5, h6]

/-- C6 (witness): instantiated at the unaccepted token "CLICK" (wrong
case, hence not matched). -/
theorem c6_classify_witness :
    "CLICK" ∉ validEvents ∧ classify "CLICK" = PressEvent.unknown :=
  ⟨by decide, (c6_classify_total "CLICK" (by decide)).2.2.2.2.2.2⟩

/-- C7: when the token classifies to `unknown`, `triggerEvent` sends no
press-event notification and does nothing further, but a supplied battery
level is still applied (and with no battery level the state is untouched). -/
theorem c7_unknown_token_battery_still_applies (h : HandlerState) (tok : String)
    (l : Rat) (hu : classify tok = PressEvent.unknown) :
    triggerEvent h tok (some l) = updateBattery h l ∧
    (triggerEvent h tok (some l)).notifications = h.notifications ∧
    triggerEvent h tok none = h := by
  refine ⟨?_, ?_, ?_⟩ <;> simp [triggerEvent, hu, updateBattery]

/-- C7 (witness): the unknown token "not-a-real-event" with battery level 5
applied to a fresh handler. -/
theorem c7_unknown_token_witness :
    classify "not-a-real-event" = PressEvent.unknown ∧
    triggerEvent (mkHandler ⟨"n", "u", "n"⟩) "not-a-real-event" (some 5)
      = updateBattery (mkHandler ⟨"n", "u", "n"⟩) 5 :=
  ⟨by decide,
    (c7_unknown_token_battery_still_applies (mkHandler ⟨"n", "u", "n"⟩)
      "not-a-real-event" 5 (by decide)).1⟩

/-- C8: a request failing validation — no source holding a valid event
token, or a battery header that does not parse as an integer in [0, 100] —
is answered 422 carrying the structured error list, and the platform
state is returned unchanged: no battery update, no notification. -/
theorem c8_validation_failure_422_no_mutation (gen : String → String)
    (st : RegState) (name : String) (req : Request)
    (hfail : anyEventValid req = false ∨ batteryHeaderOk req.batteryHeader = false) :
    validationErrors req ≠ [] ∧
    handleRequest gen st name req
      = (Response.unprocessable (validationErrors req), st) := by
  have hne : validationErrors req ≠ [] := by
    intro hnil
    rcases (validationErrors_nil_iff req).mp hnil with ⟨hA, hB⟩
    rcases hfail with hf | hf
    · rw [hA] at hf; exact Bool.noConfusion hf
    · rw [hB] at hf; exact Bool.noConfusion hf
  refine ⟨hne, ?_⟩
  have hempty : (validationErrors req).isEmpty = false := by
    cases hv : validationErrors req with
    | nil => exact absurd hv hne
    | cons a l => simp [List.isEmpty]
  simp [handleRequest, hempty]

/-- C8 (witness): the spec's own example, `event=not-a-real-event` in the
query string (and no other source), against the restored "btn" device. -/
theorem c8_validation_failure_witness :
    anyEventValid
        { queryEvent := some "not-a-real-event", bodyEvent := none,
          headerEvent := none, batteryHeader := none } = false ∧
    handleRequest id cachedBtnState "btn"
        { queryEvent := some "not-a-real-event", bodyEvent := none,
          headerEvent := none, batteryHeader := none }
      = (Response.unprocessable [VErr.eventOneOf], cachedBtnState) :=
  ⟨by decide,
    (c8_validation_failure_422_no_mutation id cachedBtnState "btn"
      { queryEvent := some "not-a-real-event", bodyEvent := none,
        headerEvent := none, batteryHeader := none }
      (Or.inl (by decide))).2⟩

/-- C9: for every configured device name exactly one route is registered,
in configuration order, and its path is "/button-" followed by the
lower-cased name with every character outside [a-z0-9] replaced by a
single hyphen; the path is a function of the name alone, so identical
names always yield identical paths. -/
theorem c9_routes_deterministic_normalized :
    (∀ buttons : List String, setupRoutes buttons = buttons.map specButtonPath) ∧
    (∀ n : String, generateButtonUri n = specButtonPath n) := by
  have hgen : ∀ n : String, generateButtonUri n = specButtonPath n := by
    intro n
    unfold generateButtonUri specButtonPath
    rw [List.map_map]
    congr 1
  refine ⟨?_, hgen⟩
  intro buttons
  rw [setupRoutes, foldl_routes_eq_map, List.nil_append, funext hgen]

/-- C10: the listening port falls back to the default 3001 not only when
absent from configuration but for every falsy configured value — in
particular a configured port of 0 — and a configured nonzero (truthy)
port is honored. -/
theorem c10_port_default_on_falsy (p : Int) (hp : p ≠ 0) :
    resolvePort none = 3001 ∧
    resolvePort (some 0) = 3001 ∧
    resolvePort (some p) = p := by
  refine ⟨rfl, rfl, ?_⟩
  simp [resolvePort, hp]

/-- C10 (witness): a configured port of 8080 is honored. -/
theorem c10_port_witness :
    (8080 : Int) ≠ 0 ∧ resolvePort (some 8080) = 8080 :=
  ⟨by decide, (c10_port_default_on_falsy 8080 (by decide)).2.2⟩

end ButtonPlatform
